import Mathlib

/-!
Verification of the core of `config.py` from the ab-flasher repository:
mount enumeration (`get_mounts`), target volume location (`find_data_mount`),
the wpa_supplicant template (`make_supplicant`), and the artifact-writing
pipeline (`main`, its configure branch).

The filesystem is modelled as an association list of file paths to contents
plus a list of directories.  I/O faults (permission errors and the like) are
modelled by a `Faults` record of predicates saying which operations fail on
which paths.  Python exceptions become explicit `PyError` values; an aborted
run carries the filesystem state reached at the point of the error
(`StepResult.error`), mirroring the fact that the Python process leaves
partially written artifacts behind when it raises.
-/

namespace ABFlasher

set_option autoImplicit false

/-- Python `os.path.join(a, b)` for the absolute-free case used in
`config.py`: plain concatenation with a `/` separator. -/
def pathJoin (a b : String) : String :=
  a ++ "/" ++ b

/-- The marker-file name, `CONFIG_FLAG = '.configure_me'` in `config.py`. -/
def CONFIG_FLAG : String :=
  ".configure_me"

/-- Errors a run can abort with, naming what Python exception they stand for. -/
inductive PyError where
  /-- the bare `raise Exception("Couldn't list mounts...")` in `get_mounts` -/
  | unsupportedPlatform
  /-- the `raise Exception("Couldn't find the flashed drive...")` in `find_data_mount` -/
  | targetNotFound
  /-- `IndexError` from `m.split()[1]` on a short line of the mount table -/
  | indexError
  /-- `OSError`/`PermissionError` from `makedirs`, `open(..., 'w')` or `os.remove` -/
  | ioError (path : String)
  /-- `FileNotFoundError` from `os.remove` on a missing file -/
  | fileNotFoundError (path : String)
deriving DecidableEq

/-- A snapshot of the filesystem: files (path, content) and directories. -/
structure FS where
  files : List (String × String)
  dirs : List String
deriving DecidableEq

/-- Which low-level operations fail, modelling permission and I/O errors. -/
structure Faults where
  readFails : String → Bool
  mkdirFails : String → Bool
  writeFails : String → Bool
  removeFails : String → Bool

/-- A set of faults where every operation succeeds. -/
def noFaults : Faults :=
  { readFails := fun _ => false, mkdirFails := fun _ => false,
    writeFails := fun _ => false, removeFails := fun _ => false }

/-- Look up a file's content; `none` when the file does not exist. -/
def getFile : List (String × String) → String → Option String
  | [], _ => none
  | (k, v) :: rest, p => if k = p then some v else getFile rest p

/-- Create or overwrite a file, as `open(path, 'w')` followed by writes does. -/
def setFile : List (String × String) → String → String → List (String × String)
  | [], k, v => [(k, v)]
  | (k', v') :: rest, k, v =>
    if k' = k then (k, v) :: rest else (k', v') :: setFile rest k v

/-- Delete a file, as `os.remove` does. -/
def delFile (l : List (String × String)) (k : String) : List (String × String) :=
  l.filter (fun p => !(p.1 == k))

/-- Result of one run or one step: success or an aborting error, both carrying
the filesystem state reached so far. -/
inductive StepResult where
  | ok (fs : FS)
  | error (e : PyError) (fs : FS)
deriving DecidableEq

/-- The filesystem state carried by a result, whether or not it aborted. -/
def StepResult.fs : StepResult → FS
  | .ok fs => fs
  | .error _ fs => fs

/-- Whether a result is a success. -/
def StepResult.isOk : StepResult → Bool
  | .ok _ => true
  | .error _ _ => false

/-- Sequencing of steps: an error aborts the remaining steps. -/
def andThen (r : StepResult) (f : FS → StepResult) : StepResult :=
  match r with
  | .ok fs => f fs
  | .error e fs => .error e fs

/-- Python `makedirs(dir, exist_ok=True)`: create the directory if absent
(the only parents ever involved in `config.py` are mount roots, which
already exist, so only the leaf directory is tracked). -/
def makedirs (faults : Faults) (dir : String) (fs : FS) : StepResult :=
  if faults.mkdirFails dir then .error (.ioError dir) fs
  else .ok { fs with dirs := if dir ∈ fs.dirs then fs.dirs else dir :: fs.dirs }

/-- Python `open(path, 'w')` plus writing `content`: whole-file overwrite. -/
def writeFile (faults : Faults) (path content : String) (fs : FS) : StepResult :=
  if faults.writeFails path then .error (.ioError path) fs
  else .ok { fs with files := setFile fs.files path content }

/-- Python `os.remove(path)`: fails with `FileNotFoundError` when the file is
absent, and with an I/O error when the fault model says removal fails. -/
def removeFile (faults : Faults) (path : String) (fs : FS) : StepResult :=
  if faults.removeFails path then .error (.ioError path) fs
  else
    match getFile fs.files path with
    | none => .error (.fileNotFoundError path) fs
    | some _ => .ok { fs with files := delFile fs.files path }

/-- The external mount-enumeration environment: the macOS `/Volumes`
directory listing when that directory exists, and the lines of the Linux
`/proc/mounts` file when that file exists. -/
structure MountEnv where
  volumes : Option (List String)
  procMounts : Option (List String)

/-- Helper for `splitFields`: walk the characters, accumulating the current
field in reverse; whitespace closes the field (if any). -/
def splitFieldsAux : List Char → List Char → List String
  | [], acc => if acc.isEmpty then [] else [String.mk acc.reverse]
  | c :: cs, acc =>
    if c.isWhitespace then
      if acc.isEmpty then splitFieldsAux cs []
      else String.mk acc.reverse :: splitFieldsAux cs []
    else splitFieldsAux cs (c :: acc)

/-- Python `str.split()` with no arguments: split on runs of whitespace,
discarding empty pieces. -/
def splitFields (s : String) : List String :=
  splitFieldsAux s.data []

/-- The list comprehension `[ m.split()[1] for m in f.readlines() ]`:
the second whitespace-separated field of every line, raising `IndexError`
at the first line with fewer than two fields. -/
def secondFields : List String → Except PyError (List String)
  | [] => Except.ok []
  | l :: ls =>
    match (splitFields l).get? 1 with
    | none => Except.error PyError.indexError
    | some f =>
      match secondFields ls with
      | Except.error e => Except.error e
      | Except.ok rest => Except.ok (f :: rest)

/-- `get_mounts` from `config.py`: list `/Volumes` if it exists (macOS),
else parse `/proc/mounts` if it exists (Linux), else raise.  Only
`FileNotFoundError` (absence, modelled by `none`) makes a branch fall
through to the next. -/
def get_mounts (env : MountEnv) : Except PyError (List String) :=
  match env.volumes with
  | some ds => Except.ok (ds.map (fun d => "/Volumes/" ++ d))
  | none =>
    match env.procMounts with
    | some lines => secondFields lines
    | none => Except.error PyError.unsupportedPlatform

/-- Whether `open(p, 'r')` succeeds: the file exists and reading it does not
fault.  The bare `except:` in `find_data_mount` treats every failure alike. -/
def markerReadable (faults : Faults) (fs : FS) (p : String) : Bool :=
  (getFile fs.files p).isSome && !faults.readFails p

/-- The scanning loop of `find_data_mount` from `config.py`: return the first
mount whose `{mount}/.configure_me` can be opened for reading, skipping any
candidate whose check raises; `none` stands for the final
`raise Exception("Couldn't find the flashed drive...")`. -/
def find_data_mount (faults : Faults) (fs : FS) : List String → Option String
  | [] => none
  | m :: ms =>
    if markerReadable faults fs (pathJoin m CONFIG_FLAG) then some m
    else find_data_mount faults fs ms

/-- `make_supplicant` from `config.py`: the wpa_supplicant.conf template. -/
def make_supplicant (country ssid pw : String) : String :=
  "ctrl_interface=DIR=/var/run/wpa_supplicant GROUP=netdev\nupdate_config=1\ncountry="
    ++ country ++ "\n\nnetwork=\x7b\n ssid=\"" ++ ssid ++ "\"\n psk=\"" ++ pw ++ "\"\n\x7d\n"

/-- The configuration record, pydantic class `Variables` in `config.py`.
Optional string fields are `Option String`; pydantic leaves them `None`
when unset. -/
structure Variables where
  final_image : String
  ssh_key : Option String := none
  ssh_ca_key : Option String := none
  wifi_country : String := "NZ"
  wifi_ssid : Option String := none
  wifi_password : Option String := none

/-- Python truthiness of an optional string: `None` and `''` are falsy. -/
def truthy : Option String → Bool
  | none => false
  | some s => !s.isEmpty

/-- Python `str` interpolation of an optional string into an f-string:
`None` prints as the literal text `None`. -/
def pyStr : Option String → String
  | none => "None"
  | some s => s

/-- Path of the SSH artifact, `os.path.join(make_data_dir('ssh'), 'authorized_keys')`. -/
def sshFilePath (dm : String) : String :=
  pathJoin (pathJoin dm "ssh") "authorized_keys"

/-- Path of the WiFi artifact, `os.path.join(make_data_dir('wifi'), 'wpa_supplicant.conf')`. -/
def wifiFilePath (dm : String) : String :=
  pathJoin (pathJoin dm "wifi") "wpa_supplicant.conf"

/-- Path of the update-agent env file, `os.path.join(data_mount, 'ab-flasher.env')`. -/
def abFilePath (dm : String) : String :=
  pathJoin dm "ab-flasher.env"

/-- Path of the marker file, `os.path.join(data_mount, CONFIG_FLAG)`. -/
def markerPath (dm : String) : String :=
  pathJoin dm CONFIG_FLAG

/-- The `ssh` directory created by `make_data_dir('ssh')`. -/
def sshDirPath (dm : String) : String :=
  pathJoin dm "ssh"

/-- The `wifi` directory created by `make_data_dir('wifi')`. -/
def wifiDirPath (dm : String) : String :=
  pathJoin dm "wifi"

/-- The content written to `ab-flasher.env`: the three `f.write` calls on one
handle amount to writing this one string. -/
def abContent (vars : Variables) : String :=
  "AB_OS_IMAGE_URL=" ++ vars.final_image ++ "\n" ++ "AB_FORCE=true\n" ++ "AB_VERBOSE=1\n"

/-- The SSH block of `main`: `if vars.ssh_key:` make the `ssh` directory and
write `vars.ssh_key + '\n'` to `authorized_keys`. -/
def sshStep (faults : Faults) (vars : Variables) (dm : String) (fs : FS) : StepResult :=
  if truthy vars.ssh_key then
    andThen (makedirs faults (sshDirPath dm) fs) (fun fs1 =>
      writeFile faults (sshFilePath dm) (pyStr vars.ssh_key ++ "\n") fs1)
  else StepResult.ok fs

/-- The WiFi block of `main`: `if vars.wifi_ssid:` make the `wifi` directory
and write the filled template; a `None` password is interpolated by the
f-string as the text `None`. -/
def wifiStep (faults : Faults) (vars : Variables) (dm : String) (fs : FS) : StepResult :=
  if truthy vars.wifi_ssid then
    andThen (makedirs faults (wifiDirPath dm) fs) (fun fs1 =>
      writeFile faults (wifiFilePath dm)
        (make_supplicant vars.wifi_country (pyStr vars.wifi_ssid) (pyStr vars.wifi_password)) fs1)
  else StepResult.ok fs

/-- The ab-flasher block of `main`: unconditionally write `ab-flasher.env`. -/
def abStep (faults : Faults) (vars : Variables) (dm : String) (fs : FS) : StepResult :=
  writeFile faults (abFilePath dm) (abContent vars) fs

/-- The configure branch of `main` in `config.py` (taken when `.env` exists
and `recreate_dotenv` is false; the dotenv-scaffolding branch is out of the
core's scope): enumerate mounts, locate the marked volume, write the
conditional SSH and WiFi artifacts and the unconditional env file, then
remove the marker.  Any error aborts the remaining steps, carrying the
filesystem state reached so far. -/
def main (faults : Faults) (env : MountEnv) (vars : Variables) (fs : FS) : StepResult :=
  match get_mounts env with
  | Except.error e => StepResult.error e fs
  | Except.ok mounts =>
    match find_data_mount faults fs mounts with
    | none => StepResult.error PyError.targetNotFound fs
    | some dm =>
      andThen (sshStep faults vars dm fs) (fun fs1 =>
        andThen (wifiStep faults vars dm fs1) (fun fs2 =>
          andThen (abStep faults vars dm fs2) (fun fs3 =>
            removeFile faults (markerPath dm) fs3)))

/-- A concrete two-volume macOS-style environment used by witnesses. -/
def env0 : MountEnv :=
  { volumes := some ["boot", "data"], procMounts := none }

/-- The mount list `get_mounts env0` produces. -/
def mounts0 : List String :=
  ["/Volumes/boot", "/Volumes/data"]

/-- A concrete filesystem where only `/Volumes/data` carries the marker. -/
def fs0 : FS :=
  { files := [(pathJoin "/Volumes/data" CONFIG_FLAG, "")], dirs := [] }

/-- The round-trip configuration record of the spec's section 8. -/
def vars0 : Variables :=
  { final_image := "http://x/img.gz",
    ssh_key := some "ssh-ed25519 AAAA... user@host",
    ssh_ca_key := none,
    wifi_country := "US",
    wifi_ssid := some "Home",
    wifi_password := some "secret" }

/-! Helper lemmas about strings viewed as paths. -/

lemma str_append_assoc (a b c : String) : a ++ b ++ c = a ++ (b ++ c) := by
  apply String.ext
  simp [String.data_append]

lemma str_cancel_left {a b c : String} (h : a ++ b = a ++ c) : b = c := by
  apply String.ext
  have hd := congrArg String.data h
  rw [String.data_append, String.data_append] at hd
  exact List.append_cancel_left hd

lemma str_cancel_right {a b c : String} (h : a ++ c = b ++ c) : a = b := by
  apply String.ext
  have hd := congrArg String.data h
  rw [String.data_append, String.data_append] at hd
  exact List.append_cancel_right hd

lemma str_append_ne_right (a : String) {b c : String} (h : b ≠ c) : a ++ b ≠ a ++ c :=
  fun hh => h (str_cancel_left hh)

lemma str_suffix_ne {x y : String} (hlen : x.data.length = y.data.length)
    (hne : x ≠ y) (a b : String) : a ++ x ≠ b ++ y := by
  intro h
  apply hne
  apply String.ext
  have hd := congrArg String.data h
  rw [String.data_append, String.data_append] at hd
  exact (List.append_inj' hd hlen).2

lemma pathJoin_eq (a b : String) : pathJoin a b = a ++ ("/" ++ b) :=
  str_append_assoc a "/" b

lemma markerPath_eq (dm : String) : markerPath dm = dm ++ "/.configure_me" := by
  rw [markerPath, CONFIG_FLAG, pathJoin_eq]
  exact congrArg (fun s => dm ++ s) (by decide)

lemma sshDirPath_eq (dm : String) : sshDirPath dm = dm ++ "/ssh" := by
  rw [sshDirPath, pathJoin_eq]
  exact congrArg (fun s => dm ++ s) (by decide)

lemma wifiDirPath_eq (dm : String) : wifiDirPath dm = dm ++ "/wifi" := by
  rw [wifiDirPath, pathJoin_eq]
  exact congrArg (fun s => dm ++ s) (by decide)

lemma abFilePath_eq (dm : String) : abFilePath dm = dm ++ "/ab-flasher.env" := by
  rw [abFilePath, pathJoin_eq]
  exact congrArg (fun s => dm ++ s) (by decide)

lemma sshFilePath_eq (dm : String) : sshFilePath dm = dm ++ "/ssh/authorized_keys" := by
  rw [sshFilePath, pathJoin_eq, pathJoin_eq, str_append_assoc]
  exact congrArg (fun s => dm ++ s) (by decide)

lemma wifiFilePath_eq (dm : String) : wifiFilePath dm = dm ++ "/wifi/wpa_supplicant.conf" := by
  rw [wifiFilePath, pathJoin_eq, pathJoin_eq, str_append_assoc]
  exact congrArg (fun s => dm ++ s) (by decide)

lemma ne_sshFile_wifiFile (dm : String) : sshFilePath dm ≠ wifiFilePath dm := by
  rw [sshFilePath_eq, wifiFilePath_eq]
  exact str_append_ne_right dm (by decide)

lemma ne_sshFile_abFile (dm : String) : sshFilePath dm ≠ abFilePath dm := by
  rw [sshFilePath_eq, abFilePath_eq]
  exact str_append_ne_right dm (by decide)

lemma ne_wifiFile_abFile (dm : String) : wifiFilePath dm ≠ abFilePath dm := by
  rw [wifiFilePath_eq, abFilePath_eq]
  exact str_append_ne_right dm (by decide)

lemma ne_sshDir_wifiDir (dm : String) : sshDirPath dm ≠ wifiDirPath dm := by
  rw [sshDirPath_eq, wifiDirPath_eq]
  exact str_append_ne_right dm (by decide)

/-- A marker path on any mount differs from the SSH artifact path on any
mount: their final fourteen characters differ. -/
lemma marker_ne_sshFile (m dm : String) : markerPath m ≠ sshFilePath dm := by
  rw [markerPath_eq, sshFilePath_eq]
  have h : dm ++ "/ssh/authorized_keys" = dm ++ "/ssh/a" ++ "uthorized_keys" := by
    rw [str_append_assoc]
    exact congrArg (fun s => dm ++ s) (by decide)
  rw [h]
  exact str_suffix_ne (by decide) (by decide) m (dm ++ "/ssh/a")

/-- A marker path on any mount differs from the WiFi artifact path on any
mount: their final fourteen characters differ. -/
lemma marker_ne_wifiFile (m dm : String) : markerPath m ≠ wifiFilePath dm := by
  rw [markerPath_eq, wifiFilePath_eq]
  have h : dm ++ "/wifi/wpa_supplicant.conf" = dm ++ "/wifi/wpa_s" ++ "upplicant.conf" := by
    rw [str_append_assoc]
    exact congrArg (fun s => dm ++ s) (by decide)
  rw [h]
  exact str_suffix_ne (by decide) (by decide) m (dm ++ "/wifi/wpa_s")

/-- A marker path on any mount differs from the env-file path on any mount:
their final fourteen characters differ. -/
lemma marker_ne_abFile (m dm : String) : markerPath m ≠ abFilePath dm := by
  rw [markerPath_eq, abFilePath_eq]
  have h : dm ++ "/ab-flasher.env" = dm ++ "/" ++ "ab-flasher.env" := by
    rw [str_append_assoc]
    exact congrArg (fun s => dm ++ s) (by decide)
  rw [h]
  exact str_suffix_ne (by decide) (by decide) m (dm ++ "/")

/-- Marker paths are injective in the mount: equal marker paths mean equal
mounts. -/
lemma marker_inj {m dm : String} (h : markerPath m = markerPath dm) : m = dm := by
  rw [markerPath_eq, markerPath_eq] at h
  exact str_cancel_right h

/-! Helper lemmas about the association-list filesystem. -/

lemma getFile_setFile_self (l : List (String × String)) (k v : String) :
    getFile (setFile l k v) k = some v := by
  induction l with
  | nil => simp [setFile, getFile]
  | cons p rest ih =>
    by_cases h : p.1 = k
    · simp [setFile, h, getFile]
    · simp [setFile, h, getFile, ih]

lemma getFile_setFile_ne (l : List (String × String)) (k v p : String) (h : p ≠ k) :
    getFile (setFile l k v) p = getFile l p := by
  have hk : k ≠ p := Ne.symm h
  induction l with
  | nil => simp [setFile, getFile, hk]
  | cons q rest ih =>
    obtain ⟨qk, qv⟩ := q
    by_cases hq : qk = k
    · subst hq
      simp [setFile, getFile, hk]
    · simp [setFile, getFile, hq, ih]

lemma getFile_delFile_self (l : List (String × String)) (k : String) :
    getFile (delFile l k) k = none := by
  induction l with
  | nil => simp [delFile, getFile]
  | cons q rest ih =>
    obtain ⟨qk, qv⟩ := q
    by_cases hq : qk = k
    · subst hq
      simpa [delFile, List.filter_cons] using ih
    · simp only [delFile, List.filter_cons] at ih ⊢
      simp [getFile, hq, ih, beq_iff_eq]

lemma getFile_delFile_ne (l : List (String × String)) (k p : String) (h : p ≠ k) :
    getFile (delFile l k) p = getFile l p := by
  induction l with
  | nil => simp [delFile, getFile]
  | cons q rest ih =>
    obtain ⟨qk, qv⟩ := q
    by_cases hq : qk = k
    · subst hq
      simp only [delFile, List.filter_cons] at ih ⊢
      simp [getFile, Ne.symm h, ih]
    · simp only [delFile, List.filter_cons] at ih ⊢
      simp [getFile, hq, ih, beq_iff_eq]

/-! Case-analysis lemmas for the primitive filesystem operations. -/

lemma makedirs_cases (faults : Faults) (dir : String) (fs : FS) :
    makedirs faults dir fs = .error (.ioError dir) fs ∨
    makedirs faults dir fs =
      .ok { fs with dirs := if dir ∈ fs.dirs then fs.dirs else dir :: fs.dirs } := by
  by_cases h : faults.mkdirFails dir = true <;> simp [makedirs, h]

lemma writeFile_cases (faults : Faults) (path content : String) (fs : FS) :
    writeFile faults path content fs = .error (.ioError path) fs ∨
    writeFile faults path content fs =
      .ok { fs with files := setFile fs.files path content } := by
  by_cases h : faults.writeFails path = true <;> simp [writeFile, h]

lemma removeFile_cases (faults : Faults) (path : String) (fs : FS) :
    removeFile faults path fs = .error (.ioError path) fs ∨
    removeFile faults path fs = .error (.fileNotFoundError path) fs ∨
    removeFile faults path fs = .ok { fs with files := delFile fs.files path } := by
  by_cases h : faults.removeFails path = true
  · simp [removeFile, h]
  · cases hg : getFile fs.files path <;> simp [removeFile, h, hg]

/-! Frame and content lemmas for the pipeline steps, stated over the state
carried by the result so that success and abort are covered at once. -/

lemma sshStep_frame (faults : Faults) (vars : Variables) (dm : String) (fs : FS)
    (p : String) (hp : p ≠ sshFilePath dm) :
    getFile (StepResult.fs (sshStep faults vars dm fs)).files p = getFile fs.files p := by
  unfold sshStep
  by_cases ht : truthy vars.ssh_key = true
  · simp only [ht, if_true]
    rcases makedirs_cases faults (sshDirPath dm) fs with hmk | hmk <;> rw [hmk]
    · rfl
    · show getFile (StepResult.fs (writeFile faults (sshFilePath dm) _ _)).files p = _
      rcases writeFile_cases faults (sshFilePath dm) (pyStr vars.ssh_key ++ "\n")
        { fs with dirs := if sshDirPath dm ∈ fs.dirs then fs.dirs else sshDirPath dm :: fs.dirs }
        with hw | hw <;> rw [hw]
      · rfl
      · exact getFile_setFile_ne _ _ _ _ hp
  · simp only [ht, if_false]
    rfl

lemma sshStep_dirs (faults : Faults) (vars : Variables) (dm : String) (fs : FS)
    (d : String) (hd : d ≠ sshDirPath dm) :
    (d ∈ (StepResult.fs (sshStep faults vars dm fs)).dirs ↔ d ∈ fs.dirs) := by
  unfold sshStep
  by_cases ht : truthy vars.ssh_key = true
  · simp only [ht, if_true]
    rcases makedirs_cases faults (sshDirPath dm) fs with hmk | hmk <;> rw [hmk]
    · rfl
    · show d ∈ (StepResult.fs (writeFile faults (sshFilePath dm) _ _)).dirs ↔ _
      rcases writeFile_cases faults (sshFilePath dm) (pyStr vars.ssh_key ++ "\n")
        { fs with dirs := if sshDirPath dm ∈ fs.dirs then fs.dirs else sshDirPath dm :: fs.dirs }
        with hw | hw <;> rw [hw] <;>
        · show (d ∈ if sshDirPath dm ∈ fs.dirs then fs.dirs else sshDirPath dm :: fs.dirs) ↔ _
          by_cases hm : sshDirPath dm ∈ fs.dirs <;> simp [hm, hd]
  · simp only [ht, if_false]
    rfl

lemma sshStep_skip (faults : Faults) (vars : Variables) (dm : String) (fs : FS)
    (ht : truthy vars.ssh_key = false) :
    sshStep faults vars dm fs = .ok fs := by
  simp [sshStep, ht]

lemma sshStep_ok_content (faults : Faults) (vars : Variables) (dm : String) (fs fs1 : FS)
    (h : sshStep faults vars dm fs = .ok fs1) (ht : truthy vars.ssh_key = true) :
    getFile fs1.files (sshFilePath dm) = some (pyStr vars.ssh_key ++ "\n") := by
  unfold sshStep at h
  simp only [ht, if_true] at h
  rcases makedirs_cases faults (sshDirPath dm) fs with hmk | hmk <;> rw [hmk] at h
  · exact absurd h (by simp [andThen])
  · simp only [andThen] at h
    rcases writeFile_cases faults (sshFilePath dm) (pyStr vars.ssh_key ++ "\n")
      { fs with dirs := if sshDirPath dm ∈ fs.dirs then fs.dirs else sshDirPath dm :: fs.dirs }
      with hw | hw <;> rw [hw] at h
    · exact absurd h (by simp)
    · cases h
      exact getFile_setFile_self _ _ _

lemma wifiStep_frame (faults : Faults) (vars : Variables) (dm : String) (fs : FS)
    (p : String) (hp : p ≠ wifiFilePath dm) :
    getFile (StepResult.fs (wifiStep faults vars dm fs)).files p = getFile fs.files p := by
  unfold wifiStep
  by_cases ht : truthy vars.wifi_ssid = true
  · simp only [ht, if_true]
    rcases makedirs_cases faults (wifiDirPath dm) fs with hmk | hmk <;> rw [hmk]
    · rfl
    · show getFile (StepResult.fs (writeFile faults (wifiFilePath dm) _ _)).files p = _
      rcases writeFile_cases faults (wifiFilePath dm)
        (make_supplicant vars.wifi_country (pyStr vars.wifi_ssid) (pyStr vars.wifi_password))
        { fs with dirs := if wifiDirPath dm ∈ fs.dirs then fs.dirs else wifiDirPath dm :: fs.dirs }
        with hw | hw <;> rw [hw]
      · rfl
      · exact getFile_setFile_ne _ _ _ _ hp
  · simp only [ht, if_false]
    rfl

lemma wifiStep_dirs (faults : Faults) (vars : Variables) (dm : String) (fs : FS)
    (d : String) (hd : d ≠ wifiDirPath dm) :
    (d ∈ (StepResult.fs (wifiStep faults vars dm fs)).dirs ↔ d ∈ fs.dirs) := by
  unfold wifiStep
  by_cases ht : truthy vars.wifi_ssid = true
  · simp only [ht, if_true]
    rcases makedirs_cases faults (wifiDirPath dm) fs with hmk | hmk <;> rw [hmk]
    · rfl
    · show d ∈ (StepResult.fs (writeFile faults (wifiFilePath dm) _ _)).dirs ↔ _
      rcases writeFile_cases faults (wifiFilePath dm)
        (make_supplicant vars.wifi_country (pyStr vars.wifi_ssid) (pyStr vars.wifi_password))
        { fs with dirs := if wifiDirPath dm ∈ fs.dirs then fs.dirs else wifiDirPath dm :: fs.dirs }
        with hw | hw <;> rw [hw] <;>
        · show (d ∈ if wifiDirPath dm ∈ fs.dirs then fs.dirs else wifiDirPath dm :: fs.dirs) ↔ _
          by_cases hm : wifiDirPath dm ∈ fs.dirs <;> simp [hm, hd]
  · simp only [ht, if_false]
    rfl

lemma wifiStep_skip (faults : Faults) (vars : Variables) (dm : String) (fs : FS)
    (ht : truthy vars.wifi_ssid = false) :
    wifiStep faults vars dm fs = .ok fs := by
  simp [wifiStep, ht]

lemma wifiStep_ok_content (faults : Faults) (vars : Variables) (dm : String) (fs fs1 : FS)
    (h : wifiStep faults vars dm fs = .ok fs1) (ht : truthy vars.wifi_ssid = true) :
    getFile fs1.files (wifiFilePath dm) =
      some (make_supplicant vars.wifi_country (pyStr vars.wifi_ssid) (pyStr vars.wifi_password)) := by
  unfold wifiStep at h
  simp only [ht, if_true] at h
  rcases makedirs_cases faults (wifiDirPath dm) fs with hmk | hmk <;> rw [hmk] at h
  · exact absurd h (by simp [andThen])
  · simp only [andThen] at h
    rcases writeFile_cases faults (wifiFilePath dm)
      (make_supplicant vars.wifi_country (pyStr vars.wifi_ssid) (pyStr vars.wifi_password))
      { fs with dirs := if wifiDirPath dm ∈ fs.dirs then fs.dirs else wifiDirPath dm :: fs.dirs }
      with hw | hw <;> rw [hw] at h
    · exact absurd h (by simp)
    · cases h
      exact getFile_setFile_self _ _ _

lemma abStep_frame (faults : Faults) (vars : Variables) (dm : String) (fs : FS)
    (p : String) (hp : p ≠ abFilePath dm) :
    getFile (StepResult.fs (abStep faults vars dm fs)).files p = getFile fs.files p := by
  unfold abStep
  rcases writeFile_cases faults (abFilePath dm) (abContent vars) fs with hw | hw <;> rw [hw]
  · rfl
  · exact getFile_setFile_ne _ _ _ _ hp

lemma abStep_dirs (faults : Faults) (vars : Variables) (dm : String) (fs : FS) :
    (StepResult.fs (abStep faults vars dm fs)).dirs = fs.dirs := by
  unfold abStep
  rcases writeFile_cases faults (abFilePath dm) (abContent vars) fs with hw | hw <;> rw [hw] <;> rfl

lemma abStep_ok_content (faults : Faults) (vars : Variables) (dm : String) (fs fs1 : FS)
    (h : abStep faults vars dm fs = .ok fs1) :
    getFile fs1.files (abFilePath dm) = some (abContent vars) := by
  unfold abStep at h
  rcases writeFile_cases faults (abFilePath dm) (abContent vars) fs with hw | hw <;> rw [hw] at h
  · exact absurd h (by simp)
  · cases h
    exact getFile_setFile_self _ _ _

lemma removeFile_frame (faults : Faults) (path : String) (fs : FS)
    (p : String) (hp : p ≠ path) :
    getFile (StepResult.fs (removeFile faults path fs)).files p = getFile fs.files p := by
  rcases removeFile_cases faults path fs with hr | hr | hr <;> rw [hr]
  · rfl
  · rfl
  · exact getFile_delFile_ne _ _ _ hp

lemma removeFile_dirs (faults : Faults) (path : String) (fs : FS) :
    (StepResult.fs (removeFile faults path fs)).dirs = fs.dirs := by
  rcases removeFile_cases faults path fs with hr | hr | hr <;> rw [hr] <;> rfl

lemma removeFile_ok_none (faults : Faults) (path : String) (fs fs1 : FS)
    (h : removeFile faults path fs = .ok fs1) :
    getFile fs1.files path = none := by
  rcases removeFile_cases faults path fs with hr | hr | hr <;> rw [hr] at h
  · exact absurd h (by simp)
  · exact absurd h (by simp)
  · cases h
    exact getFile_delFile_self _ _

lemma removeFile_error_state (faults : Faults) (path : String) (fs fs1 : FS) (e : PyError)
    (h : removeFile faults path fs = .error e fs1) : fs1 = fs := by
  rcases removeFile_cases faults path fs with hr | hr | hr <;> rw [hr] at h
  · cases h; rfl
  · cases h; rfl
  · exact absurd h (by simp)

/-! Composition lemmas for the whole pipeline. -/

/-- The write-and-clear phase of `main`, run once the target mount is known. -/
def pipeline (faults : Faults) (vars : Variables) (dm : String) (fs : FS) : StepResult :=
  andThen (sshStep faults vars dm fs) (fun fs1 =>
    andThen (wifiStep faults vars dm fs1) (fun fs2 =>
      andThen (abStep faults vars dm fs2) (fun fs3 =>
        removeFile faults (markerPath dm) fs3)))

lemma main_eq (faults : Faults) (env : MountEnv) (vars : Variables) (fs : FS)
    (mounts : List String) (dm : String)
    (hm : get_mounts env = Except.ok mounts)
    (hf : find_data_mount faults fs mounts = some dm) :
    main faults env vars fs = pipeline faults vars dm fs := by
  unfold main pipeline
  simp only [hm]
  simp only [hf]

lemma andThen_ok {r : StepResult} {f : FS → StepResult} {fs' : FS}
    (h : andThen r f = .ok fs') : ∃ fs1, r = .ok fs1 ∧ f fs1 = .ok fs' := by
  cases r with
  | ok fs1 => exact ⟨fs1, rfl, h⟩
  | error e fs1 => simp [andThen] at h

lemma andThen_error {r : StepResult} {f : FS → StepResult} {e : PyError} {fs' : FS}
    (h : andThen r f = .error e fs') :
    r = .error e fs' ∨ ∃ fs1, r = .ok fs1 ∧ f fs1 = .error e fs' := by
  cases r with
  | ok fs1 => exact Or.inr ⟨fs1, rfl, h⟩
  | error e1 fs1 =>
    simp only [andThen] at h
    exact Or.inl h

/-- Success of the pipeline decomposes into success of every step, in order. -/
lemma pipeline_ok_decomp (faults : Faults) (vars : Variables) (dm : String) (fs fs' : FS)
    (h : pipeline faults vars dm fs = .ok fs') :
    ∃ fs1 fs2 fs3,
      sshStep faults vars dm fs = .ok fs1 ∧
      wifiStep faults vars dm fs1 = .ok fs2 ∧
      abStep faults vars dm fs2 = .ok fs3 ∧
      removeFile faults (markerPath dm) fs3 = .ok fs' := by
  unfold pipeline at h
  obtain ⟨fs1, hs, h⟩ := andThen_ok h
  obtain ⟨fs2, hw, h⟩ := andThen_ok h
  obtain ⟨fs3, ha, h⟩ := andThen_ok h
  exact ⟨fs1, fs2, fs3, hs, hw, ha, h⟩

/-- Generic frame property for the pipeline's files, assembled from frame
properties of the individual steps. -/
lemma pipeline_files_frame (faults : Faults) (vars : Variables) (dm : String) (fs : FS)
    (p : String)
    (hssh : ∀ fs0, getFile (StepResult.fs (sshStep faults vars dm fs0)).files p
      = getFile fs0.files p)
    (hwifi : ∀ fs0, getFile (StepResult.fs (wifiStep faults vars dm fs0)).files p
      = getFile fs0.files p)
    (hab : ∀ fs0, getFile (StepResult.fs (abStep faults vars dm fs0)).files p
      = getFile fs0.files p)
    (hrem : ∀ fs0, getFile (StepResult.fs (removeFile faults (markerPath dm) fs0)).files p
      = getFile fs0.files p) :
    getFile (StepResult.fs (pipeline faults vars dm fs)).files p = getFile fs.files p := by
  unfold pipeline
  cases hs : sshStep faults vars dm fs with
  | error e fs1 =>
    have h1 := hssh fs
    rw [hs] at h1
    simpa [andThen] using h1
  | ok fs1 =>
    have h1 := hssh fs
    rw [hs] at h1
    simp only [andThen]
    cases hw : wifiStep faults vars dm fs1 with
    | error e fs2 =>
      have h2 := hwifi fs1
      rw [hw] at h2
      simpa [andThen] using h2.trans h1
    | ok fs2 =>
      have h2 := hwifi fs1
      rw [hw] at h2
      simp only [andThen]
      cases ha : abStep faults vars dm fs2 with
      | error e fs3 =>
        have h3 := hab fs2
        rw [ha] at h3
        simpa [andThen] using (h3.trans h2).trans h1
      | ok fs3 =>
        have h3 := hab fs2
        rw [ha] at h3
        simp only [andThen]
        exact ((hrem fs3).trans h3).trans (h2.trans h1)

/-- Generic frame property for the pipeline's directories. -/
lemma pipeline_dirs_frame (faults : Faults) (vars : Variables) (dm : String) (fs : FS)
    (d : String)
    (hssh : ∀ fs0, (d ∈ (StepResult.fs (sshStep faults vars dm fs0)).dirs ↔ d ∈ fs0.dirs))
    (hwifi : ∀ fs0, (d ∈ (StepResult.fs (wifiStep faults vars dm fs0)).dirs ↔ d ∈ fs0.dirs)) :
    (d ∈ (StepResult.fs (pipeline faults vars dm fs)).dirs ↔ d ∈ fs.dirs) := by
  unfold pipeline
  cases hs : sshStep faults vars dm fs with
  | error e fs1 =>
    have h1 := hssh fs
    rw [hs] at h1
    simpa [andThen] using h1
  | ok fs1 =>
    have h1 := hssh fs
    rw [hs] at h1
    simp only [andThen]
    cases hw : wifiStep faults vars dm fs1 with
    | error e fs2 =>
      have h2 := hwifi fs1
      rw [hw] at h2
      simpa [andThen] using h2.trans h1
    | ok fs2 =>
      have h2 := hwifi fs1
      rw [hw] at h2
      simp only [andThen]
      cases ha : abStep faults vars dm fs2 with
      | error e fs3 =>
        have h3 := abStep_dirs faults vars dm fs2
        rw [ha] at h3
        simp only [StepResult.fs] at h3
        simp only [andThen, StepResult.fs]
        rw [h3]
        exact h2.trans h1
      | ok fs3 =>
        have h3 := abStep_dirs faults vars dm fs2
        rw [ha] at h3
        simp only [StepResult.fs] at h3
        have h4 := removeFile_dirs faults (markerPath dm) fs3
        simp only [andThen]
        rw [h4, h3]
        exact h2.trans h1

/-! Characterization of the locator scan. -/

lemma find_some_first (faults : Faults) (fs : FS) :
    ∀ (mounts : List String) (m : String),
    find_data_mount faults fs mounts = some m →
    markerReadable faults fs (pathJoin m CONFIG_FLAG) = true ∧
    ∃ pre post, mounts = pre ++ m :: post ∧
      ∀ m' ∈ pre, markerReadable faults fs (pathJoin m' CONFIG_FLAG) = false := by
  intro mounts
  induction mounts with
  | nil => intro m h; simp [find_data_mount] at h
  | cons a ms ih =>
    intro m h
    by_cases ha : markerReadable faults fs (pathJoin a CONFIG_FLAG) = true
    · simp only [find_data_mount, ha, if_true, Option.some.injEq] at h
      subst h
      exact ⟨ha, [], ms, rfl, by simp⟩
    · have ha' : markerReadable faults fs (pathJoin a CONFIG_FLAG) = false := by
        simpa using ha
      simp only [find_data_mount, ha', Bool.false_eq_true, if_false] at h
      obtain ⟨hr, pre, post, hsplit, hpre⟩ := ih m h
      refine ⟨hr, a :: pre, post, by rw [hsplit]; rfl, ?_⟩
      intro m' hm'
      rcases List.mem_cons.mp hm' with hm' | hm'
      · rw [hm']; exact ha'
      · exact hpre m' hm'

lemma find_none_iff (faults : Faults) (fs : FS) (mounts : List String) :
    (find_data_mount faults fs mounts = none ↔
      ∀ m ∈ mounts, markerReadable faults fs (pathJoin m CONFIG_FLAG) = false) := by
  induction mounts with
  | nil => simp [find_data_mount]
  | cons a ms ih =>
    by_cases ha : markerReadable faults fs (pathJoin a CONFIG_FLAG) = true
    · simp [find_data_mount, ha]
    · have ha' : markerReadable faults fs (pathJoin a CONFIG_FLAG) = false := by
        simpa using ha
      simp [find_data_mount, ha', ih]

lemma find_some_readable (faults : Faults) (fs : FS) (mounts : List String) (m : String)
    (h : find_data_mount faults fs mounts = some m) :
    markerReadable faults fs (pathJoin m CONFIG_FLAG) = true :=
  (find_some_first faults fs mounts m h).1

/-! Behaviour of the mount-table parse. -/

lemma secondFields_ok (lines : List String)
    (h : ∀ l ∈ lines, 2 ≤ (splitFields l).length) :
    secondFields lines = Except.ok (lines.map (fun l => (splitFields l).getD 1 "")) := by
  induction lines with
  | nil => simp [secondFields]
  | cons l ls ih =>
    have hl : 2 ≤ (splitFields l).length := h l (by simp)
    have hg : (splitFields l).get? 1 = some ((splitFields l).getD 1 "") := by
      rw [List.getD_eq_getD_get?]
      cases hgg : (splitFields l).get? 1 with
      | none => exact absurd (List.get?_eq_none.mp hgg) (by omega)
      | some x => rfl
    rw [secondFields, hg, ih (fun l' hl' => h l' (by simp [hl']))]
    rfl

lemma secondFields_index_error (lines : List String)
    (h : ∃ l ∈ lines, (splitFields l).length < 2) :
    secondFields lines = Except.error PyError.indexError := by
  induction lines with
  | nil => simp at h
  | cons l ls ih =>
    by_cases hl : (splitFields l).length < 2
    · have hg : (splitFields l).get? 1 = none := List.get?_eq_none.mpr (by omega)
      rw [secondFields, hg]
    · obtain ⟨l', hl', hshort⟩ := h
      rcases List.mem_cons.mp hl' with rfl | hl'
      · exact absurd hshort hl
      · have hg : (splitFields l).get? 1 = some ((splitFields l).get ⟨1, by omega⟩) := by
          exact List.get?_eq_get (by omega)
        rw [secondFields, hg, ih ⟨l', hl', hshort⟩]

/-! Marker and artifact content across the whole pipeline. -/

lemma pipeline_files_frame_ne (faults : Faults) (vars : Variables) (dm : String) (fs : FS)
    (p : String) (h1 : p ≠ sshFilePath dm) (h2 : p ≠ wifiFilePath dm)
    (h3 : p ≠ abFilePath dm) (h4 : p ≠ markerPath dm) :
    getFile (StepResult.fs (pipeline faults vars dm fs)).files p = getFile fs.files p := by
  apply pipeline_files_frame
  · intro fs0; exact sshStep_frame faults vars dm fs0 p h1
  · intro fs0; exact wifiStep_frame faults vars dm fs0 p h2
  · intro fs0; exact abStep_frame faults vars dm fs0 p h3
  · intro fs0; exact removeFile_frame faults (markerPath dm) fs0 p h4

lemma pipeline_error_marker (faults : Faults) (vars : Variables) (dm : String)
    (fs : FS) (e : PyError) (fs' : FS)
    (h : pipeline faults vars dm fs = .error e fs') :
    getFile fs'.files (markerPath dm) = getFile fs.files (markerPath dm) := by
  unfold pipeline at h
  rcases andThen_error h with h | ⟨fs1, hs, h⟩
  · have h1 := sshStep_frame faults vars dm fs (markerPath dm) (marker_ne_sshFile dm dm)
    rw [h] at h1
    exact h1
  · have h1 := sshStep_frame faults vars dm fs (markerPath dm) (marker_ne_sshFile dm dm)
    rw [hs] at h1
    rcases andThen_error h with h | ⟨fs2, hw, h⟩
    · have h2 := wifiStep_frame faults vars dm fs1 (markerPath dm) (marker_ne_wifiFile dm dm)
      rw [h] at h2
      exact h2.trans h1
    · have h2 := wifiStep_frame faults vars dm fs1 (markerPath dm) (marker_ne_wifiFile dm dm)
      rw [hw] at h2
      rcases andThen_error h with h | ⟨fs3, ha, h⟩
      · have h3 := abStep_frame faults vars dm fs2 (markerPath dm) (marker_ne_abFile dm dm)
        rw [h] at h3
        exact (h3.trans h2).trans h1
      · have h3 := abStep_frame faults vars dm fs2 (markerPath dm) (marker_ne_abFile dm dm)
        rw [ha] at h3
        have h4 := removeFile_error_state faults (markerPath dm) fs3 fs' e h
        subst h4
        exact (h3.trans h2).trans h1

lemma pipeline_ok_marker (faults : Faults) (vars : Variables) (dm : String) (fs fs' : FS)
    (h : pipeline faults vars dm fs = .ok fs') :
    getFile fs'.files (markerPath dm) = none := by
  obtain ⟨fs1, fs2, fs3, hs, hw, ha, hr⟩ := pipeline_ok_decomp faults vars dm fs fs' h
  exact removeFile_ok_none faults (markerPath dm) fs3 fs' hr

lemma pipeline_ok_ab (faults : Faults) (vars : Variables) (dm : String) (fs fs' : FS)
    (h : pipeline faults vars dm fs = .ok fs') :
    getFile fs'.files (abFilePath dm) = some (abContent vars) := by
  obtain ⟨fs1, fs2, fs3, hs, hw, ha, hr⟩ := pipeline_ok_decomp faults vars dm fs fs' h
  have h3 := abStep_ok_content faults vars dm fs2 fs3 ha
  have h4 := removeFile_frame faults (markerPath dm) fs3 (abFilePath dm)
    (Ne.symm (marker_ne_abFile dm dm))
  rw [hr] at h4
  exact h4.trans h3

lemma pipeline_ok_ssh (faults : Faults) (vars : Variables) (dm : String) (fs fs' : FS)
    (h : pipeline faults vars dm fs = .ok fs') (ht : truthy vars.ssh_key = true) :
    getFile fs'.files (sshFilePath dm) = some (pyStr vars.ssh_key ++ "\n") := by
  obtain ⟨fs1, fs2, fs3, hs, hw, ha, hr⟩ := pipeline_ok_decomp faults vars dm fs fs' h
  have h1 := sshStep_ok_content faults vars dm fs fs1 hs ht
  have h2 := wifiStep_frame faults vars dm fs1 (sshFilePath dm) (ne_sshFile_wifiFile dm)
  rw [hw] at h2
  have h3 := abStep_frame faults vars dm fs2 (sshFilePath dm) (ne_sshFile_abFile dm)
  rw [ha] at h3
  have h4 := removeFile_frame faults (markerPath dm) fs3 (sshFilePath dm)
    (Ne.symm (marker_ne_sshFile dm dm))
  rw [hr] at h4
  exact ((h4.trans h3).trans h2).trans h1

lemma pipeline_ok_wifi (faults : Faults) (vars : Variables) (dm : String) (fs fs' : FS)
    (h : pipeline faults vars dm fs = .ok fs') (ht : truthy vars.wifi_ssid = true) :
    getFile fs'.files (wifiFilePath dm) =
      some (make_supplicant vars.wifi_country (pyStr vars.wifi_ssid) (pyStr vars.wifi_password)) := by
  obtain ⟨fs1, fs2, fs3, hs, hw, ha, hr⟩ := pipeline_ok_decomp faults vars dm fs fs' h
  have h2 := wifiStep_ok_content faults vars dm fs1 fs2 hw ht
  have h3 := abStep_frame faults vars dm fs2 (wifiFilePath dm) (ne_wifiFile_abFile dm)
  rw [ha] at h3
  have h4 := removeFile_frame faults (markerPath dm) fs3 (wifiFilePath dm)
    (Ne.symm (marker_ne_wifiFile dm dm))
  rw [hr] at h4
  exact (h4.trans h3).trans h2

lemma pipeline_ssh_skip_file (faults : Faults) (vars : Variables) (dm : String) (fs : FS)
    (ht : truthy vars.ssh_key = false) :
    getFile (StepResult.fs (pipeline faults vars dm fs)).files (sshFilePath dm)
      = getFile fs.files (sshFilePath dm) := by
  apply pipeline_files_frame
  · intro fs0; rw [sshStep_skip faults vars dm fs0 ht]; rfl
  · intro fs0; exact wifiStep_frame faults vars dm fs0 _ (ne_sshFile_wifiFile dm)
  · intro fs0; exact abStep_frame faults vars dm fs0 _ (ne_sshFile_abFile dm)
  · intro fs0
    exact removeFile_frame faults (markerPath dm) fs0 _ (Ne.symm (marker_ne_sshFile dm dm))

lemma pipeline_ssh_skip_dir (faults : Faults) (vars : Variables) (dm : String) (fs : FS)
    (ht : truthy vars.ssh_key = false) :
    (sshDirPath dm ∈ (StepResult.fs (pipeline faults vars dm fs)).dirs
      ↔ sshDirPath dm ∈ fs.dirs) := by
  apply pipeline_dirs_frame
  · intro fs0; rw [sshStep_skip faults vars dm fs0 ht]; rfl
  · intro fs0; exact wifiStep_dirs faults vars dm fs0 _ (ne_sshDir_wifiDir dm)

lemma pipeline_wifi_skip_file (faults : Faults) (vars : Variables) (dm : String) (fs : FS)
    (ht : truthy vars.wifi_ssid = false) :
    getFile (StepResult.fs (pipeline faults vars dm fs)).files (wifiFilePath dm)
      = getFile fs.files (wifiFilePath dm) := by
  apply pipeline_files_frame
  · intro fs0; exact sshStep_frame faults vars dm fs0 _ (Ne.symm (ne_sshFile_wifiFile dm))
  · intro fs0; rw [wifiStep_skip faults vars dm fs0 ht]; rfl
  · intro fs0; exact abStep_frame faults vars dm fs0 _ (ne_wifiFile_abFile dm)
  · intro fs0
    exact removeFile_frame faults (markerPath dm) fs0 _ (Ne.symm (marker_ne_wifiFile dm dm))

lemma pipeline_wifi_skip_dir (faults : Faults) (vars : Variables) (dm : String) (fs : FS)
    (ht : truthy vars.wifi_ssid = false) :
    (wifiDirPath dm ∈ (StepResult.fs (pipeline faults vars dm fs)).dirs
      ↔ wifiDirPath dm ∈ fs.dirs) := by
  apply pipeline_dirs_frame
  · intro fs0; exact sshStep_dirs faults vars dm fs0 _ (Ne.symm (ne_sshDir_wifiDir dm))
  · intro fs0; rw [wifiStep_skip faults vars dm fs0 ht]; rfl

/-! Further concrete instances used by witnesses and counterexamples. -/

/-- A fault set where reading the boot volume's marker raises. -/
def faultsReadBoot : Faults :=
  { noFaults with readFails := fun p => p == pathJoin "/Volumes/boot" CONFIG_FLAG }

/-- A fault set where writing the env file on the data volume raises. -/
def faultsWriteAb : Faults :=
  { noFaults with writeFails := fun p => p == abFilePath "/Volumes/data" }

/-- A filesystem where both volumes carry the marker. -/
def fsBoth : FS :=
  { files := [(pathJoin "/Volumes/boot" CONFIG_FLAG, ""),
              (pathJoin "/Volumes/data" CONFIG_FLAG, "")], dirs := [] }

/-- The round-trip record with the WiFi password left unset. -/
def varsNoPw : Variables :=
  { final_image := "http://x/img.gz",
    ssh_key := some "ssh-ed25519 AAAA... user@host",
    ssh_ca_key := none,
    wifi_country := "US",
    wifi_ssid := some "Home",
    wifi_password := none }

/-- A record with only the required field set. -/
def varsOnlyImage : Variables :=
  { final_image := "http://x/img.gz" }

/-- A record with only the SSH key set besides the image. -/
def varsSshOnly : Variables :=
  { final_image := "http://x/img.gz", ssh_key := some "ssh-ed25519 AAAA... user@host" }

/-- Well-formed Linux mount-table lines. -/
def linuxLines : List String :=
  ["/dev/sda1 / ext4 rw 0 0", "proc /proc proc rw 0 0"]

/-- A Linux-style environment with a well-formed mount table. -/
def envLinux : MountEnv :=
  { volumes := none, procMounts := some linuxLines }

/-- A Linux-style environment whose mount table has a one-field line. -/
def envLinuxBad : MountEnv :=
  { volumes := none, procMounts := some ["/dev/sda1 / ext4 rw 0 0", "junk"] }

/-- An environment with neither enumeration mechanism available. -/
def envNone : MountEnv :=
  { volumes := none, procMounts := none }

/-! The claims. -/

/-- Claim C1: for every list of mount paths, `find_data_mount` returns the
first mount in the list whose marker file `{mount}/.configure_me` can be
opened for reading (every earlier candidate's check failed and was skipped),
and it fails with TargetNotFound (returns `none`) iff no mount in the list
has a readable marker. -/
theorem C1_find_data_mount_first_match (faults : Faults) (fs : FS) (mounts : List String) :
    (∀ m, find_data_mount faults fs mounts = some m →
      markerReadable faults fs (pathJoin m CONFIG_FLAG) = true ∧
      ∃ pre post, mounts = pre ++ m :: post ∧
        ∀ m' ∈ pre, markerReadable faults fs (pathJoin m' CONFIG_FLAG) = false)
    ∧ (find_data_mount faults fs mounts = none ↔
      ∀ m ∈ mounts, markerReadable faults fs (pathJoin m CONFIG_FLAG) = false) :=
  ⟨fun m h => find_some_first faults fs mounts m h, find_none_iff faults fs mounts⟩

/-- Witness for C1: with the boot volume's marker check raising and both
volumes marked, the scan skips boot and returns the data volume. -/
theorem C1_witness :
    markerReadable faultsReadBoot fsBoth (pathJoin "/Volumes/data" CONFIG_FLAG) = true ∧
    ∃ pre post, mounts0 = pre ++ "/Volumes/data" :: post ∧
      ∀ m' ∈ pre, markerReadable faultsReadBoot fsBoth (pathJoin m' CONFIG_FLAG) = false :=
  (C1_find_data_mount_first_match faultsReadBoot fsBoth mounts0).1 "/Volumes/data" (by decide)

/-- Counterexample to claim C2 as stated: with `wifi_ssid` present but
`wifi_password` absent, the run succeeds and the WiFi artifact is still
produced, so both credentials are not needed together. -/
theorem C2_counterexample :
    varsNoPw.wifi_password = none ∧
    StepResult.isOk (main noFaults env0 varsNoPw fs0) = true ∧
    (getFile (StepResult.fs (main noFaults env0 varsNoPw fs0)).files
      (wifiFilePath "/Volumes/data")).isSome = true :=
  ⟨rfl, rfl, rfl⟩

/-- Claim C2 (amended): the WiFi artifact is produced exactly when
`wifi_ssid` is present and non-empty — `wifi_password` is not required (an
absent password is interpolated as the text `None`); absence of the ssid
suppresses WiFi configuration regardless of the password. -/
theorem C2_wifi_requires_only_ssid (faults : Faults) (env : MountEnv) (vars : Variables)
    (fs : FS) (mounts : List String) (dm : String) (fs' : FS)
    (hm : get_mounts env = Except.ok mounts)
    (hf : find_data_mount faults fs mounts = some dm)
    (hr : main faults env vars fs = StepResult.ok fs') :
    (truthy vars.wifi_ssid = true →
      getFile fs'.files (wifiFilePath dm) =
        some (make_supplicant vars.wifi_country (pyStr vars.wifi_ssid) (pyStr vars.wifi_password)))
    ∧ (truthy vars.wifi_ssid = false →
      getFile fs'.files (wifiFilePath dm) = getFile fs.files (wifiFilePath dm)) := by
  rw [main_eq faults env vars fs mounts dm hm hf] at hr
  constructor
  · intro ht
    exact pipeline_ok_wifi faults vars dm fs fs' hr ht
  · intro ht
    have h := pipeline_wifi_skip_file faults vars dm fs ht
    rw [hr] at h
    exact h

/-- Witness for the amended C2: the ssid alone produces the WiFi artifact,
with the absent password rendered as `None`. -/
theorem C2_witness :
    getFile (StepResult.fs (main noFaults env0 varsNoPw fs0)).files
      (wifiFilePath "/Volumes/data") = some (make_supplicant "US" "Home" "None") := by
  have h := (C2_wifi_requires_only_ssid noFaults env0 varsNoPw fs0 mounts0 "/Volumes/data"
    (StepResult.fs (main noFaults env0 varsNoPw fs0)) rfl rfl rfl).1 rfl
  exact h.trans (by rfl)

/-- Claim C3: on any run that locates the target, if `ssh_key` is empty or
absent the SSH artifact and directory are never created (unchanged whether
the run succeeds or aborts); if `wifi_ssid` is empty or absent neither the
WiFi artifact nor the `wifi/` directory is created, regardless of
`wifi_password`; and on a successful run with non-empty `ssh_key` the SSH
artifact contains the key string followed by a newline. -/
theorem C3_conditional_write (faults : Faults) (env : MountEnv) (vars : Variables)
    (fs : FS) (mounts : List String) (dm : String)
    (hm : get_mounts env = Except.ok mounts)
    (hf : find_data_mount faults fs mounts = some dm) :
    (truthy vars.ssh_key = false →
      getFile (StepResult.fs (main faults env vars fs)).files (sshFilePath dm)
        = getFile fs.files (sshFilePath dm) ∧
      (sshDirPath dm ∈ (StepResult.fs (main faults env vars fs)).dirs
        ↔ sshDirPath dm ∈ fs.dirs))
    ∧ (truthy vars.wifi_ssid = false →
      getFile (StepResult.fs (main faults env vars fs)).files (wifiFilePath dm)
        = getFile fs.files (wifiFilePath dm) ∧
      (wifiDirPath dm ∈ (StepResult.fs (main faults env vars fs)).dirs
        ↔ wifiDirPath dm ∈ fs.dirs))
    ∧ (∀ fs', main faults env vars fs = StepResult.ok fs' →
      truthy vars.ssh_key = true →
      getFile fs'.files (sshFilePath dm) = some (pyStr vars.ssh_key ++ "\n")) := by
  rw [main_eq faults env vars fs mounts dm hm hf]
  refine ⟨fun ht => ⟨pipeline_ssh_skip_file faults vars dm fs ht,
            pipeline_ssh_skip_dir faults vars dm fs ht⟩,
          fun ht => ⟨pipeline_wifi_skip_file faults vars dm fs ht,
            pipeline_wifi_skip_dir faults vars dm fs ht⟩,
          fun fs' hr ht => pipeline_ok_ssh faults vars dm fs fs' hr ht⟩

/-- Witness for C3: with only the SSH key set, the WiFi artifact and
directory stay absent and the SSH artifact holds the key plus newline. -/
theorem C3_witness :
    getFile (StepResult.fs (main noFaults env0 varsSshOnly fs0)).files
      (wifiFilePath "/Volumes/data") = getFile fs0.files (wifiFilePath "/Volumes/data") ∧
    (wifiDirPath "/Volumes/data" ∈ (StepResult.fs (main noFaults env0 varsSshOnly fs0)).dirs
      ↔ wifiDirPath "/Volumes/data" ∈ fs0.dirs) ∧
    getFile (StepResult.fs (main noFaults env0 varsSshOnly fs0)).files
      (sshFilePath "/Volumes/data") = some "ssh-ed25519 AAAA... user@host\n" := by
  have h := C3_conditional_write noFaults env0 varsSshOnly fs0 mounts0 "/Volumes/data" rfl rfl
  refine ⟨(h.2.1 rfl).1, (h.2.1 rfl).2, ?_⟩
  have h3 := h.2.2 (StepResult.fs (main noFaults env0 varsSshOnly fs0)) rfl rfl
  exact h3.trans (by rfl)

/-- Claim C4: once the target is located, an aborting run leaves the marker
file exactly as it was — still present — while a successful run ends with
the marker removed; so the marker is cleared only after every artifact write
succeeded. -/
theorem C4_marker_removed_last (faults : Faults) (env : MountEnv) (vars : Variables)
    (fs : FS) (mounts : List String) (dm : String)
    (hm : get_mounts env = Except.ok mounts)
    (hf : find_data_mount faults fs mounts = some dm) :
    (∀ e fs', main faults env vars fs = StepResult.error e fs' →
      getFile fs'.files (markerPath dm) = getFile fs.files (markerPath dm) ∧
      (getFile fs'.files (markerPath dm)).isSome = true)
    ∧ (∀ fs', main faults env vars fs = StepResult.ok fs' →
      getFile fs'.files (markerPath dm) = none) := by
  have hread := find_some_readable faults fs mounts dm hf
  have hpresent : (getFile fs.files (markerPath dm)).isSome = true := by
    unfold markerReadable at hread
    simp only [Bool.and_eq_true] at hread
    exact hread.1
  constructor
  · intro e fs' hr
    rw [main_eq faults env vars fs mounts dm hm hf] at hr
    have hu := pipeline_error_marker faults vars dm fs e fs' hr
    exact ⟨hu, by rw [hu]; exact hpresent⟩
  · intro fs' hr
    rw [main_eq faults env vars fs mounts dm hm hf] at hr
    exact pipeline_ok_marker faults vars dm fs fs' hr

/-- Witness for C4: a clean run removes the marker; a run whose env-file
write faults aborts with the marker still present. -/
theorem C4_witness :
    getFile (StepResult.fs (main noFaults env0 vars0 fs0)).files
      (markerPath "/Volumes/data") = none ∧
    (getFile (StepResult.fs (main faultsWriteAb env0 vars0 fs0)).files
      (markerPath "/Volumes/data")).isSome = true := by
  constructor
  · exact (C4_marker_removed_last noFaults env0 vars0 fs0 mounts0 "/Volumes/data" rfl rfl).2
      (StepResult.fs (main noFaults env0 vars0 fs0)) rfl
  · exact ((C4_marker_removed_last faultsWriteAb env0 vars0 fs0 mounts0 "/Volumes/data" rfl rfl).1
      (PyError.ioError (abFilePath "/Volumes/data"))
      (StepResult.fs (main faultsWriteAb env0 vars0 fs0)) rfl).2

/-- Claim C5: `get_mounts` follows the platform policy in order, first
applicable wins: an existing volumes directory yields one `/Volumes/`-path
per child entry without consulting the mount table; else an existing
mount-table file yields each line's second whitespace-separated field;
else the enumeration fails with UnsupportedPlatform.  (It is a pure
function of the environment, so it has no side effects.) -/
theorem C5_get_mounts_platform_policy (env : MountEnv) :
    (∀ ds, env.volumes = some ds →
      get_mounts env = Except.ok (ds.map (fun d => "/Volumes/" ++ d)))
    ∧ (∀ lines, env.volumes = none → env.procMounts = some lines →
      (∀ l ∈ lines, 2 ≤ (splitFields l).length) →
      get_mounts env = Except.ok (lines.map (fun l => (splitFields l).getD 1 "")))
    ∧ (env.volumes = none → env.procMounts = none →
      get_mounts env = Except.error PyError.unsupportedPlatform) := by
  refine ⟨?_, ?_, ?_⟩
  · intro ds hv
    simp only [get_mounts, hv]
  · intro lines hv hp hlen
    simp only [get_mounts, hv, hp]
    exact secondFields_ok lines hlen
  · intro hv hp
    simp only [get_mounts, hv, hp]

/-- Witness for C5: the three branches at concrete environments. -/
theorem C5_witness :
    get_mounts env0 = Except.ok (["boot", "data"].map (fun d => "/Volumes/" ++ d)) ∧
    get_mounts envLinux = Except.ok (linuxLines.map (fun l => (splitFields l).getD 1 "")) ∧
    get_mounts envNone = Except.error PyError.unsupportedPlatform :=
  ⟨(C5_get_mounts_platform_policy env0).1 ["boot", "data"] rfl,
   (C5_get_mounts_platform_policy envLinux).2.1 linuxLines rfl rfl (by decide),
   (C5_get_mounts_platform_policy envNone).2.2 rfl rfl⟩

/-- Claim C6: every successful run, whatever the SSH or WiFi fields are,
ends with `{target}/ab-flasher.env` containing exactly the three fixed
lines with the run's `final_image` substituted, each newline-terminated. -/
theorem C6_env_file_always_written (faults : Faults) (env : MountEnv) (vars : Variables)
    (fs : FS) (mounts : List String) (dm : String) (fs' : FS)
    (hm : get_mounts env = Except.ok mounts)
    (hf : find_data_mount faults fs mounts = some dm)
    (hr : main faults env vars fs = StepResult.ok fs') :
    getFile fs'.files (abFilePath dm) =
      some ("AB_OS_IMAGE_URL=" ++ vars.final_image ++ "\n" ++ "AB_FORCE=true\n" ++ "AB_VERBOSE=1\n") := by
  rw [main_eq faults env vars fs mounts dm hm hf] at hr
  exact pipeline_ok_ab faults vars dm fs fs' hr

/-- Witness for C6: with no SSH or WiFi fields set, the env file is still
written with the three fixed lines. -/
theorem C6_witness :
    getFile (StepResult.fs (main noFaults env0 varsOnlyImage fs0)).files
      (abFilePath "/Volumes/data")
      = some "AB_OS_IMAGE_URL=http://x/img.gz\nAB_FORCE=true\nAB_VERBOSE=1\n" := by
  have h := C6_env_file_always_written noFaults env0 varsOnlyImage fs0 mounts0 "/Volumes/data"
    (StepResult.fs (main noFaults env0 varsOnlyImage fs0)) rfl rfl rfl
  exact h.trans (by rfl)

/-- Claim C7: after a successful run against the only marked volume, running
the pipeline again over the same mount list fails with TargetNotFound and
returns the filesystem unchanged, leaving every artifact of the first run
in place. -/
theorem C7_idempotence (faults : Faults) (env : MountEnv) (vars : Variables)
    (fs : FS) (mounts : List String) (dm : String) (fs' : FS)
    (hm : get_mounts env = Except.ok mounts)
    (hf : find_data_mount faults fs mounts = some dm)
    (hr : main faults env vars fs = StepResult.ok fs')
    (hother : ∀ m ∈ mounts, m ≠ dm →
      markerReadable faults fs (pathJoin m CONFIG_FLAG) = false) :
    main faults env vars fs' = StepResult.error PyError.targetNotFound fs' := by
  rw [main_eq faults env vars fs mounts dm hm hf] at hr
  have hnone : find_data_mount faults fs' mounts = none := by
    rw [find_none_iff]
    intro m hmem
    by_cases hmd : m = dm
    · subst hmd
      show markerReadable faults fs' (markerPath m) = false
      unfold markerReadable
      rw [pipeline_ok_marker faults vars m fs fs' hr]
      rfl
    · have hfr : getFile fs'.files (markerPath m) = getFile fs.files (markerPath m) := by
        have h := pipeline_files_frame_ne faults vars dm fs (markerPath m)
          (marker_ne_sshFile m dm) (marker_ne_wifiFile m dm) (marker_ne_abFile m dm)
          (fun hc => hmd (marker_inj hc))
        rw [hr] at h
        exact h
      show markerReadable faults fs' (markerPath m) = false
      unfold markerReadable
      rw [hfr]
      exact hother m hmem hmd
  unfold main
  simp only [hm]
  simp only [hnone]

/-- Witness for C7: the second run after the concrete round-trip run fails
with TargetNotFound without touching the filesystem. -/
theorem C7_witness :
    main noFaults env0 vars0 (StepResult.fs (main noFaults env0 vars0 fs0))
      = StepResult.error PyError.targetNotFound
        (StepResult.fs (main noFaults env0 vars0 fs0)) :=
  C7_idempotence noFaults env0 vars0 fs0 mounts0 "/Volumes/data"
    (StepResult.fs (main noFaults env0 vars0 fs0)) rfl rfl rfl (by decide)

/-- Claim C8: the round-trip — with the spec's concrete configuration, a run
against the marked data volume succeeds, produces all three artifacts with
byte-exact template contents, and removes the marker. -/
theorem C8_roundtrip :
    StepResult.isOk (main noFaults env0 vars0 fs0) = true ∧
    getFile (StepResult.fs (main noFaults env0 vars0 fs0)).files
      (sshFilePath "/Volumes/data") = some "ssh-ed25519 AAAA... user@host\n" ∧
    getFile (StepResult.fs (main noFaults env0 vars0 fs0)).files
      (wifiFilePath "/Volumes/data")
      = some "ctrl_interface=DIR=/var/run/wpa_supplicant GROUP=netdev\nupdate_config=1\ncountry=US\n\nnetwork=\x7b\n ssid=\"Home\"\n psk=\"secret\"\n\x7d\n" ∧
    getFile (StepResult.fs (main noFaults env0 vars0 fs0)).files
      (abFilePath "/Volumes/data")
      = some "AB_OS_IMAGE_URL=http://x/img.gz\nAB_FORCE=true\nAB_VERBOSE=1\n" ∧
    getFile (StepResult.fs (main noFaults env0 vars0 fs0)).files
      (markerPath "/Volumes/data") = none :=
  ⟨rfl, rfl, rfl, rfl, rfl⟩

/-- The wpa_supplicant template with a `None` password contains the literal
psk line ` psk="None"`. -/
lemma make_supplicant_psk_line (c s : String) :
    ∃ pre post, make_supplicant c s "None" = pre ++ (" psk=\"None\"" ++ "\n") ++ post := by
  refine ⟨"ctrl_interface=DIR=/var/run/wpa_supplicant GROUP=netdev\nupdate_config=1\ncountry="
    ++ c ++ ("\n\nnetwork=\x7b\n ssid=\"" ++ s ++ "\"\n"), "\x7d\n", ?_⟩
  apply String.ext
  simp only [make_supplicant, String.data_append, List.append_assoc]
  simp only [List.append_right_inj]
  decide

/-- Claim C9: when `wifi_ssid` is truthy but `wifi_password` is `None`, a
successful run still creates the WiFi artifact, and its content is the
template with the password interpolated as the text `None`, so the file's
psk line is the literal ` psk="None"`. -/
theorem C9_psk_none (faults : Faults) (env : MountEnv) (vars : Variables)
    (fs : FS) (mounts : List String) (dm : String) (fs' : FS)
    (hm : get_mounts env = Except.ok mounts)
    (hf : find_data_mount faults fs mounts = some dm)
    (hr : main faults env vars fs = StepResult.ok fs')
    (hssid : truthy vars.wifi_ssid = true)
    (hpw : vars.wifi_password = none) :
    getFile fs'.files (wifiFilePath dm) =
      some (make_supplicant vars.wifi_country (pyStr vars.wifi_ssid) "None") ∧
    ∃ pre post, make_supplicant vars.wifi_country (pyStr vars.wifi_ssid) "None"
      = pre ++ (" psk=\"None\"" ++ "\n") ++ post := by
  constructor
  · rw [main_eq faults env vars fs mounts dm hm hf] at hr
    have h := pipeline_ok_wifi faults vars dm fs fs' hr hssid
    rw [hpw] at h
    exact h
  · exact make_supplicant_psk_line vars.wifi_country (pyStr vars.wifi_ssid)

/-- Witness for C9: the concrete run with ssid `Home` and no password. -/
theorem C9_witness :
    getFile (StepResult.fs (main noFaults env0 varsNoPw fs0)).files
      (wifiFilePath "/Volumes/data") = some (make_supplicant "US" "Home" "None") ∧
    ∃ pre post, make_supplicant "US" "Home" "None" = pre ++ (" psk=\"None\"" ++ "\n") ++ post := by
  have h := C9_psk_none noFaults env0 varsNoPw fs0 mounts0 "/Volumes/data"
    (StepResult.fs (main noFaults env0 varsNoPw fs0)) rfl rfl rfl rfl rfl
  exact ⟨h.1.trans (by rfl), h.2⟩

/-- Claim C10: on the Linux mount-table path, a line with fewer than two
whitespace-separated fields makes `get_mounts` raise IndexError (not
UnsupportedPlatform); it returns normally when every line has at least two
fields. -/
theorem C10_mount_table_index_error (env : MountEnv) (lines : List String)
    (hv : env.volumes = none) (hp : env.procMounts = some lines) :
    ((∃ l ∈ lines, (splitFields l).length < 2) →
      get_mounts env = Except.error PyError.indexError)
    ∧ ((∀ l ∈ lines, 2 ≤ (splitFields l).length) →
      ∃ ms, get_mounts env = Except.ok ms) := by
  constructor
  · intro hex
    simp only [get_mounts, hv, hp]
    exact secondFields_index_error lines hex
  · intro hall
    refine ⟨lines.map (fun l => (splitFields l).getD 1 ""), ?_⟩
    simp only [get_mounts, hv, hp]
    exact secondFields_ok lines hall

/-- Witness for C10: a mount table with the one-field line `junk` makes the
enumeration raise IndexError. -/
theorem C10_witness :
    get_mounts envLinuxBad = Except.error PyError.indexError :=
  (C10_mount_table_index_error envLinuxBad ["/dev/sda1 / ext4 rw 0 0", "junk"]
    rfl rfl).1 (by decide)

end ABFlasher
